import Mathlib

/-!
Shallow embedding of the demiurgos template-package manager
(src/generator.rs, src/main.rs) for checking its specification.

The filesystem is passed explicitly: a JSON-reading filesystem is a
function from a path to `Option (Option Json)` where `none` means the
file does not exist, `some none` means it exists but is not valid JSON
(so `path_to_json` fails on it), and `some (some j)` means it parses to
`j`.  Rust panics (`unwrap`, `expect`) are modelled as `Except.error`.
-/

namespace Demiurgos

/-- serde_json::Value, modelled as a JSON value tree.  Objects are
association lists with the first binding of a key the visible one
(serde_json maps have unique keys, so the distinction never matters). -/
inductive Json where
  | null : Json
  | bool (b : Bool) : Json
  | num (n : Int) : Json
  | str (s : String) : Json
  | arr (xs : List Json) : Json
  | obj (fields : List (String × Json)) : Json

/-- Lookup of a key in a JSON object's field list (serde_json `Map::get`). -/
def lookupJ : List (String × Json) → String → Option Json
  | [], _ => none
  | (k2, v) :: rest, k => if k2 = k then some v else lookupJ rest k

/-- In-place update of the value bound to a key (the effect of mutating
through serde_json `Map::get_mut`): the first binding of `k` gets the new
value, everything else, order included, is unchanged. -/
def updateKey : List (String × Json) → String → Json → List (String × Json)
  | [], _, _ => []
  | (k2, v2) :: rest, k, v =>
    if k2 = k then (k2, v) :: rest else (k2, v2) :: updateKey rest k v

/-- serde_json `Map::insert`: replaces the value if the key is present,
otherwise appends the binding. -/
def insertKey : List (String × Json) → String → Json → List (String × Json)
  | [], k, v => [(k, v)]
  | (k2, v2) :: rest, k, v =>
    if k2 = k then (k2, v) :: rest else (k2, v2) :: insertKey rest k v

/-- A filesystem as seen by `path_to_json` (src/main.rs:166-173):
`none` = path does not exist, `some none` = exists but unreadable or
invalid JSON, `some (some j)` = reads and parses to `j`. -/
def JsonFs : Type := String → Option (Option Json)

/-- The guard of the reference branch in `dereference_config`
(src/generator.rs:455): `object.contains_key("$ref") &&
object.get("$ref").unwrap().is_string() && object.len() == 1`. -/
def is_ref_object (o : List (String × Json)) : Bool :=
  (lookupJ o "$ref").isSome &&
    (match lookupJ o "$ref" with
     | some (.str _) => true
     | _ => false) &&
    o.length == 1

/-- The body of the `for_each` closure of `dereference_config`
(src/generator.rs:453-465) applied to one entity value.  Returns the new
value for the entity together with the list of `error!`-reported
messages; `Except.error` models a panic (`elem.as_object_mut().unwrap()`
on a non-object entity, or the `expect` on `path_to_json` when the
referenced file exists but is not valid JSON). -/
def derefEntity (fs : JsonFs) (parent_path : String) : Json → Except String (Json × List String)
  | .obj o =>
    if is_ref_object o then
      match lookupJ o "$ref" with
      | some (.str reference) =>
        let file_path := parent_path ++ "/" ++ reference
        match fs file_path with
        | some (some doc) => .ok (doc, [])
        | some none =>
          .error ("panic: file " ++ file_path ++ " doesnt exist or is an invalid JSON")
        | none => .ok (.obj o, ["File " ++ file_path ++ " does not exist"])
      | _ => .ok (.obj o, [])
    else .ok (.obj o, [])
  | _ => .error "panic: called Option::unwrap() on a None value (entity is not an object)"

/-- `entities.values_mut().into_iter().for_each(...)`
(src/generator.rs:453): each entity value is rewritten in order by
`derefEntity`; the first panic aborts, reported messages accumulate in
order. -/
def derefEntities (fs : JsonFs) (parent_path : String) :
    List (String × Json) → Except String (List (String × Json) × List String)
  | [] => .ok ([], [])
  | (k, v) :: rest =>
    match derefEntity fs parent_path v with
    | .error e => .error e
    | .ok (v2, errs) =>
      match derefEntities fs parent_path rest with
      | .error e => .error e
      | .ok (rest2, errs2) => .ok ((k, v2) :: rest2, errs ++ errs2)

/-- `dereference_config` (src/generator.rs:449-466).
`config.get_mut("entities").unwrap()` panics when the config is not an
object or has no "entities" key; `.as_object_mut().unwrap()` panics when
the entities value is not an object. -/
def dereference_config (fs : JsonFs) (parent_path : String) :
    Json → Except String (Json × List String)
  | .obj fields =>
    match lookupJ fields "entities" with
    | some (.obj ents) =>
      match derefEntities fs parent_path ents with
      | .error e => .error e
      | .ok (ents2, errs) => .ok (.obj (updateKey fields "entities" (.obj ents2)), errs)
    | some _ => .error "panic: called Option::unwrap() on a None value (entities is not an object)"
    | none => .error "panic: called Option::unwrap() on a None value (no entities key)"
  | _ => .error "panic: called Option::unwrap() on a None value (config is not an object)"

/-- The `outputFolder` injection of the Generate command
(src/main.rs:123-125): `if let Some(obj) = ctx.as_object_mut() {
obj.insert("outputFolder", json!(output.to_str())) }`; a non-object
context is left unchanged. -/
def inject_output_folder (output : String) : Json → Json
  | .obj fields => .obj (insertKey fields "outputFolder" (.str output))
  | v => v

/-- Context construction of the Generate command (src/main.rs:113-125):
when a config file path is given, the parsed config is dereferenced
against the config file's parent directory and only afterwards receives
the `outputFolder` key; without a config path the context starts as the
empty object. -/
def build_context (fs : JsonFs) (parent_path : String) (output : String) :
    Option Json → Except String Json
  | some config =>
    match dereference_config fs parent_path config with
    | .error e => .error e
    | .ok (config2, _errs) => .ok (inject_output_folder output config2)
  | none => .ok (inject_output_folder output (.obj []))

/-- serde_yaml::Value: for this development only its role as an opaque
parsed value matters, so it is modelled by the same value tree. -/
abbrev Yaml : Type := Json

/-- The fields of GeneratorYaml (src/generator.rs:37-74) that the code
under verification reads; the remaining manifest fields are carried
nowhere relevant and are omitted. -/
structure GeneratorYaml where
  api_version : String
  name : String
  version : String
deriving DecidableEq, Repr

mutual

/-- A package directory as the loader observes it.  Parsing is done by
serde (external), so files carry their parse outcome: `none` = file
missing or unreadable, `some none` = present but not deserializable,
`some (some v)` = parses to `v`.  `filesDir` is the glob enumeration of
`files/**/*` restricted to regular files, in the order the glob crate
yields it (alphabetical, per that crate's contract); `templatesDir`
holds the entry names of `templates/` in the order `fs::read_dir`
returns them (platform-dependent, not sorted); `depsDir` holds the
entries of `dependencies/` (name and subdirectory) in `read_dir`
order. -/
inductive PkgFs where
  | mk
    (manifestFile : Option (Option GeneratorYaml))
    (licenseFile : Option String)
    (readmeFile : Option String)
    (valuesFile : Option (Option Yaml))
    (schemaFile : Option (Option Json))
    (filesDir : Option (List String))
    (templatesDir : Option (List String))
    (depsDir : DepsDir) : PkgFs

/-- The `dependencies/` directory: absent (or not a directory), or
present with its entries. -/
inductive DepsDir where
  | absent : DepsDir
  | present (entries : DepEntries) : DepsDir

/-- The entries of a `dependencies/` directory, each a name and the
subdirectory it holds, in `read_dir` order (a list type mutual with
`PkgFs` so that the loader's recursion is structural). -/
inductive DepEntries where
  | nil : DepEntries
  | cons (name : String) (sub : PkgFs) (rest : DepEntries) : DepEntries

end

def PkgFs.manifestFile : PkgFs → Option (Option GeneratorYaml)
  | .mk m _ _ _ _ _ _ _ => m

def PkgFs.valuesFile : PkgFs → Option (Option Yaml)
  | .mk _ _ _ v _ _ _ _ => v

def PkgFs.filesDir : PkgFs → Option (List String)
  | .mk _ _ _ _ _ f _ _ => f

def PkgFs.templatesDir : PkgFs → Option (List String)
  | .mk _ _ _ _ _ _ t _ => t

def PkgFs.depsDir : PkgFs → DepsDir
  | .mk _ _ _ _ _ _ _ d => d

/-- Error kinds of std::io::ErrorKind used by the loader. -/
inductive ErrKind where
  | notFound
  | invalidData
deriving DecidableEq, Repr

/-- A std::io::Error: kind plus message. -/
structure IoErr where
  kind : ErrKind
  msg : String
deriving DecidableEq, Repr

/-- The loaded package, struct Generator (src/generator.rs:24-35). -/
inductive Generator where
  | mk
    (base_path : String)
    (generator_yaml : GeneratorYaml)
    (license : Option String)
    (readme : Option String)
    (values : Yaml)
    (schema : Option Json)
    (files : Option (List String))
    (templates : List String)
    (dependencies : Option (List Generator)) : Generator

def Generator.base_path : Generator → String
  | .mk b _ _ _ _ _ _ _ _ => b

def Generator.generator_yaml : Generator → GeneratorYaml
  | .mk _ g _ _ _ _ _ _ _ => g

def Generator.values : Generator → Yaml
  | .mk _ _ _ _ v _ _ _ _ => v

def Generator.files : Generator → Option (List String)
  | .mk _ _ _ _ _ _ f _ _ => f

def Generator.templates : Generator → List String
  | .mk _ _ _ _ _ _ _ t _ => t

def Generator.dependencies : Generator → Option (List Generator)
  | .mk _ _ _ _ _ _ _ _ d => d

/-- `read_yaml_file` (src/generator.rs:241-249): a missing or unreadable
file is a NotFound error, a file serde_yaml cannot deserialize is an
InvalidData error. -/
def read_yaml_file {α : Type} (file : Option (Option α)) (file_path : String) :
    Except IoErr α :=
  match file with
  | none => .error ⟨.notFound, "Error reading file " ++ file_path⟩
  | some none => .error ⟨.invalidData, "Cannot deserialize file " ++ file_path⟩
  | some (some v) => .ok v

/-- `read_optional_json_file` (src/generator.rs:255-258): missing and
unparseable both collapse to None via `.ok()?` and `.ok()`. -/
def read_optional_json_file (file : Option (Option Json)) : Option Json :=
  match file with
  | some (some j) => some j
  | _ => none

/-- `read_optional_directory` (src/generator.rs:260-290): an absent
directory gives None; otherwise the glob result (files only, in the glob
crate's order) with empty path strings filtered out; an empty result
collapses to None. -/
def read_optional_directory (dir : Option (List String)) : Option (List String) :=
  match dir with
  | none => none
  | some l =>
    let files := l.filter (fun s => !s.isEmpty)
    if files.isEmpty then none else some files

/-- `read_required_directory` (src/generator.rs:292-301): an absent
`templates/` directory is a NotFound error; otherwise every entry (files
and subdirectories alike) is listed as its full path, in the order
`fs::read_dir` returned the entries — the code applies no sort. -/
def read_required_directory (dir : Option (List String)) (base_path : String)
    (dir_name : String) : Except IoErr (List String) :=
  match dir with
  | none => .error ⟨.notFound, "Directory " ++ dir_name ++ " not found"⟩
  | some names => .ok (names.map (fun n => base_path ++ "/" ++ dir_name ++ "/" ++ n))

/-- The straight-line body of `Generator::from_directory`
(src/generator.rs:125-147) once the dependency loading is given:
manifest and values are read with `?` (fatal), license/readme/schema and
files optionally, `templates` with `?` (fatal). -/
def from_directory_reads (base_path : String)
    (mf : Option (Option GeneratorYaml)) (lf rf : Option String)
    (vf : Option (Option Yaml)) (sf : Option (Option Json))
    (fd td : Option (List String)) (deps : Option (List Generator)) :
    Except IoErr Generator :=
  match read_yaml_file mf (base_path ++ "/Generator.yaml") with
  | .error e => .error e
  | .ok generator_yaml =>
    match read_yaml_file vf (base_path ++ "/values.yaml") with
    | .error e => .error e
    | .ok values =>
      match read_required_directory td base_path "templates" with
      | .error e => .error e
      | .ok templates =>
        .ok (.mk base_path generator_yaml lf rf values
              (read_optional_json_file sf)
              (read_optional_directory fd)
              templates
              deps)

mutual

/-- `Generator::from_directory` (src/generator.rs:125-147). -/
def from_directory (base_path : String) (pkg : PkgFs) : Except IoErr Generator :=
  match pkg with
  | .mk mf lf rf vf sf fd td dd =>
    from_directory_reads base_path mf lf rf vf sf fd td (readDeps base_path dd)
termination_by structural pkg

/-- `read_optional_dependencies` (src/generator.rs:303-318): an absent
`dependencies/` directory yields None; otherwise each entry is loaded. -/
def readDeps (base_path : String) (dd : DepsDir) : Option (List Generator) :=
  match dd with
  | .absent => none
  | .present entries => some (loadDeps base_path entries)
termination_by structural dd

/-- The entry loop of `read_optional_dependencies`
(src/generator.rs:308-317): each entry of `dependencies/` is loaded
recursively from its path and a failing entry is dropped by
`.ok()`/`filter_map`, keeping its siblings. -/
def loadDeps (base_path : String) (entries : DepEntries) : List Generator :=
  match entries with
  | .nil => []
  | .cons name sub rest =>
    match from_directory (base_path ++ "/dependencies/" ++ name) sub with
    | .ok g => g :: loadDeps base_path rest
    | .error _ => loadDeps base_path rest
termination_by structural entries

end

/-- Lexicographic order on strings by code point, as a boolean: the
order `Vec<String>::sort` uses (UTF-8 byte order coincides with code
point order). -/
def strLeB (a b : String) : Bool :=
  go a.toList b.toList
where
  go : List Char → List Char → Bool
    | [], _ => true
    | _ :: _, [] => false
    | c1 :: r1, c2 :: r2 =>
      if c1 = c2 then go r1 r2 else decide (c1.toNat < c2.toNat)

/-- Stable insertion of a string into a sorted list under `strLeB`. -/
def insertSorted (s : String) : List String → List String
  | [] => [s]
  | t :: rest => if strLeB s t then s :: t :: rest else t :: insertSorted s rest

/-- Stable insertion sort under `strLeB`: the effect of
`templates.sort()` on a `Vec<String>` (Rust's sort is stable and
compares strings bytewise). -/
def sortStrings : List String → List String
  | [] => []
  | s :: rest => insertSorted s (sortStrings rest)

/-- The segment of `s` after the last occurrence of `c` (the whole
string when `c` does not occur), built by scanning the reversed
character list. -/
def afterLast (c : Char) (s : String) : String :=
  go [] s.toList.reverse
where
  go (acc : List Char) : List Char → String
    | [] => String.mk acc
    | c2 :: rest => if c2 = c then String.mk acc else go (c2 :: acc) rest

/-- Rust `Path::file_name` for the paths this code feeds it: the
component after the last separator. -/
def fileName (p : String) : String := afterLast '/' p

/-- `str::starts_with("_")`: whether the first character is an
underscore. -/
def startsWithUnderscore (name : String) : Bool :=
  match name.toList with
  | [] => false
  | c :: _ => c = '_'

/-- Rust `Path::extension` on a file name: the part after the last dot,
provided that dot is not the first character; `none` when there is no
such dot. -/
def extensionOf (name : String) : Option String :=
  go [] name.toList.reverse
where
  go (acc : List Char) : List Char → Option String
    | [] => none
    | c :: rest =>
      if c = '.' then (if rest.isEmpty then none else some (String.mk acc))
      else go (c :: acc) rest

/-- The filter-and-dispatch loop of `Generator::generate_templates`
(src/generator.rs:191-200) over the already-sorted template paths.
`fs p = some content` means `p` is a regular file with that text
(`template.is_file()` and `fs::read_to_string`).  The result collects
the `rrgen.generate(content, values)` invocations in order; the
rendering itself is the external engine's business.  `Except.error`
models the panic of `template.extension().unwrap()` when a file whose
name starts with an underscore has no extension (the `&&` only reaches
that unwrap for underscore-named files). -/
def processTemplates (fs : String → Option String) (values : Json) :
    List String → Except String (List (String × Json))
  | [] => .ok []
  | p :: rest =>
    match fs p with
    | none => processTemplates fs values rest
    | some content =>
      if startsWithUnderscore (fileName p) then
        match extensionOf (fileName p) with
        | none => .error ("panic: called Option::unwrap() on a None value (no extension: " ++ p ++ ")")
        | some e =>
          if e = "tpl" then processTemplates fs values rest
          else (processTemplates fs values rest).map (fun out => (content, values) :: out)
      else (processTemplates fs values rest).map (fun out => (content, values) :: out)

/-- `Generator::generate_templates` (src/generator.rs:174-203): empty
template list is a successful no-op; otherwise the template paths are
sorted (`templates.sort()`) and run through the filter-and-dispatch
loop.  The destination-directory bookkeeping and the tera registration
are external filesystem/renderer effects that the selection logic never
reads, so they are not part of this model. -/
def generate_templates (fs : String → Option String) (values : Json)
    (templates : List String) : Except String (List (String × Json)) :=
  if templates.isEmpty then .ok []
  else processTemplates fs values (sortStrings templates)

/-- The installed store: the set of directories and of files (path and
content) under the store root. -/
structure Store where
  dirs : List String
  files : List (String × String)
deriving DecidableEq, Repr

/-- A staged package as `move_to_repo_root` sees it: the parse outcome
of its `Generator.yaml` and the staged tree's files (relative path and
content). -/
structure Staged where
  manifestFile : Option (Option GeneratorYaml)
  files : List (String × String)
deriving DecidableEq, Repr

/-- `move_to_repo_root` (src/generator.rs:415-447), the install step.
It opens the staged `Generator.yaml` (`File::open(..).unwrap()` panics
when absent), deserializes it (error on failure), and computes
`generator_dir = repo_root/name/version`.  The guarded
`create_dir_all(&generator_dir)` on line 432 is not awaited: the tokio
future is dropped unpolled, so no directory is ever created; the copy
loop that would move the staged tree (lines 436-445) is commented out in
the source.  The function therefore returns `Ok` with the store
unchanged; the returned string is the computed destination directory. -/
def move_to_repo_root (staged : Staged) (repo_root : String) (store : Store) :
    Except String (Store × String) :=
  match staged.manifestFile with
  | none => .error "panic: called Result::unwrap() on an Err value (cannot open Generator.yaml)"
  | some none => .error "Failed to deserialize Generator.yaml"
  | some (some generator) =>
    let generator_dir := repo_root ++ "/" ++ generator.name ++ "/" ++ generator.version
    .ok (store, generator_dir)

/-! Concrete instances used by the witnesses and counterexamples below. -/

/-- A filesystem with one referenced document `cfg/b.json`. -/
def c4fs : JsonFs := fun p =>
  if p = "cfg/b.json" then some (some (.obj [("x", .num 1)])) else none

/-- A config whose entities exercise the three reference shapes: exact
single-key string ref, extra key alongside the ref, non-string ref. -/
def c4fields : List (String × Json) :=
  [("entities", .obj
      [("a", .obj [("$ref", .str "b.json")]),
       ("b", .obj [("x", .num 2), ("$ref", .str "c.json")]),
       ("c", .obj [("$ref", .num 3)])]),
   ("other", .num 5)]

/-- The entities of `c4fields`. -/
def c4ents : List (String × Json) :=
  [("a", .obj [("$ref", .str "b.json")]),
   ("b", .obj [("x", .num 2), ("$ref", .str "c.json")]),
   ("c", .obj [("$ref", .num 3)])]

/-- What dereferencing `c4fields` against `c4fs` produces. -/
def c4out : Json :=
  .obj [("entities", .obj
          [("a", .obj [("x", .num 1)]),
           ("b", .obj [("x", .num 2), ("$ref", .str "c.json")]),
           ("c", .obj [("$ref", .num 3)])]),
        ("other", .num 5)]

/-- A filesystem where only `cfg/b.json` exists. -/
def c5fs : JsonFs := fun p =>
  if p = "cfg/b.json" then some (some (.obj [("x", .num 1)])) else none

/-- A filesystem where `cfg/bad.json` exists but is invalid JSON. -/
def c10fs : JsonFs := fun p => if p = "cfg/bad.json" then some none else none

/-- A filesystem whose referenced document carries its own
`outputFolder` key. -/
def c6fs : JsonFs := fun p =>
  if p = "cfg/x.json" then some (some (.obj [("outputFolder", .str "evil")])) else none

/-- A config with a stale top-level `outputFolder` and a reference whose
target also produces an `outputFolder`. -/
def c6config : Json :=
  .obj [("outputFolder", .str "stale"),
        ("entities", .obj [("a", .obj [("$ref", .str "x.json")])])]

/-- A package directory with a valid manifest and templates but no
`values.yaml`. -/
def c2pkg : PkgFs :=
  .mk (some (some ⟨"v1", "demo", "1.0.0"⟩)) none none none none none
      (some ["index.tpl"]) .absent

/-- A valid package directory whose `templates/` enumeration comes back
from `read_dir` in non-alphabetical order. -/
def c3pkg : PkgFs :=
  .mk (some (some ⟨"v1", "demo", "1.0.0"⟩)) none none (some (some (.obj []))) none
      none (some ["b.tpl", "a.tpl"]) .absent

/-- A valid dependency subdirectory. -/
def c8good : PkgFs :=
  .mk (some (some ⟨"v1", "dep", "0.1"⟩)) none none (some (some (.obj []))) none
      none (some ["d.tpl"]) .absent

/-- A malformed dependency subdirectory: no manifest at all. -/
def c8bad : PkgFs :=
  .mk none none none none none none none .absent

/-- A parent package with one good and one malformed dependency. -/
def c8parent : PkgFs :=
  .mk (some (some ⟨"v1", "par", "1.0"⟩)) none none (some (some (.obj []))) none
      none (some ["p.tpl"]) (.present (.cons "good" c8good (.cons "bad" c8bad .nil)))

/-- A template filesystem: a partial, a plain template, an
underscore-but-not-tpl file, and an underscore file with no extension. -/
def c7fs : String → Option String := fun p =>
  if p = "t/_part.tpl" then some "PARTIAL"
  else if p = "t/index.tpl" then some "INDEX"
  else if p = "t/_keep.txt" then some "KEEP"
  else if p = "t/_noext" then some "NOEXT"
  else none

/-- A staged package with a readable manifest and one template file. -/
def c1staged : Staged :=
  ⟨some (some ⟨"v1", "demo", "1.0.0"⟩), [("templates/index.tpl", "hello")]⟩

/-- What loading `c3pkg` from base path "p" yields. -/
def c3gen : Generator :=
  .mk "p" ⟨"v1", "demo", "1.0.0"⟩ none none (.obj []) none none
      ["p/templates/b.tpl", "p/templates/a.tpl"] none

/-- What loading the dependency `c8good` from its entry path yields. -/
def c8goodGen : Generator :=
  .mk "p/dependencies/good" ⟨"v1", "dep", "0.1"⟩ none none (.obj []) none none
      ["p/dependencies/good/templates/d.tpl"] none

/-! Helper lemmas shared by the claim theorems. -/

theorem lookupJ_insertKey_self (fields : List (String × Json)) (k : String) (v : Json) :
    lookupJ (insertKey fields k v) k = some v := by
  induction fields with
  | nil => simp [insertKey, lookupJ]
  | cons hd tl ih =>
    obtain ⟨k2, v2⟩ := hd
    by_cases hk : k2 = k <;> simp [insertKey, lookupJ, hk, ih]

theorem derefEntity_obj_ok_cases (fs : JsonFs) (pp : String) (o : List (String × Json))
    (v2 : Json) (es : List String) (h : derefEntity fs pp (.obj o) = .ok (v2, es)) :
    (∀ r d, lookupJ o "$ref" = some (.str r) → o.length = 1 →
        fs (pp ++ "/" ++ r) = some (some d) → v2 = d) ∧
    (∀ rv, lookupJ o "$ref" = some rv → ((∀ s, rv ≠ .str s) ∨ o.length ≠ 1) → v2 = .obj o) ∧
    (lookupJ o "$ref" = none → v2 = .obj o) := by
  refine ⟨?_, ?_, ?_⟩
  · intro r d href hlen hfs
    have hrb : is_ref_object o = true := by simp [is_ref_object, href, hlen]
    simp [derefEntity, hrb, href, hfs] at h
    exact h.1.symm
  · intro rv href hor
    have hrb : is_ref_object o = false := by
      rcases hor with hns | hlen
      · cases rv with
        | str s => exact absurd rfl (hns s)
        | _ => simp [is_ref_object, href]
      · have hb : (o.length == 1) = false := by simpa using hlen
        simp [is_ref_object, hb]
    simp [derefEntity, hrb] at h
    exact h.1.symm
  · intro href
    have hrb : is_ref_object o = false := by simp [is_ref_object, href]
    simp [derefEntity, hrb] at h
    exact h.1.symm

theorem derefEntities_ok_pointwise (fs : JsonFs) (pp : String) :
    ∀ (ents ents2 : List (String × Json)) (errs : List String),
      derefEntities fs pp ents = .ok (ents2, errs) →
      ents2.length = ents.length ∧
      ∀ i (hi : i < ents.length) (hi2 : i < ents2.length),
        (ents2.get ⟨i, hi2⟩).1 = (ents.get ⟨i, hi⟩).1 ∧
        ∃ es, derefEntity fs pp (ents.get ⟨i, hi⟩).2 = .ok ((ents2.get ⟨i, hi2⟩).2, es) := by
  intro ents
  induction ents with
  | nil =>
    intro ents2 errs h
    simp [derefEntities] at h
    refine ⟨by simp [h.1.symm], ?_⟩
    intro i hi
    exact absurd hi (by simp)
  | cons hd tl ih =>
    obtain ⟨k, v⟩ := hd
    intro ents2 errs h
    cases h1 : derefEntity fs pp v with
    | error e => simp [derefEntities, h1] at h
    | ok pr =>
      obtain ⟨v2, es1⟩ := pr
      cases h2 : derefEntities fs pp tl with
      | error e => simp [derefEntities, h1, h2] at h
      | ok pr2 =>
        obtain ⟨rest2, es2⟩ := pr2
        simp [derefEntities, h1, h2] at h
        obtain ⟨hents2, -⟩ := h
        subst hents2
        obtain ⟨ihlen, ihpt⟩ := ih rest2 es2 h2
        refine ⟨by simp [ihlen], ?_⟩
        intro i hi hi2
        cases i with
        | zero => exact ⟨rfl, ⟨es1, h1⟩⟩
        | succ n =>
          exact ihpt n (by simpa using hi) (by simpa using hi2)

theorem derefEntities_error_of_nonobj (fs : JsonFs) (pp : String) :
    ∀ (ents : List (String × Json)) (k : String) (v : Json), (k, v) ∈ ents →
      (∀ o, v ≠ Json.obj o) → ∃ e, derefEntities fs pp ents = .error e := by
  intro ents
  induction ents with
  | nil => intro k v h _; simp at h
  | cons hd tl ih =>
    obtain ⟨k2, v2⟩ := hd
    intro k v hmem hno
    rcases List.mem_cons.mp hmem with heq | htl
    · injection heq with hk hv
      subst hv
      have hpanic : ∃ e2, derefEntity fs pp v = .error e2 := by
        cases v with
        | obj o => exact absurd rfl (hno o)
        | _ => exact ⟨_, rfl⟩
      obtain ⟨e2, he2⟩ := hpanic
      exact ⟨e2, by simp [derefEntities, he2]⟩
    · obtain ⟨e, he⟩ := ih k v htl hno
      cases h1 : derefEntity fs pp v2 with
      | error e2 => exact ⟨e2, by simp [derefEntities, h1]⟩
      | ok pr =>
        obtain ⟨v3, es⟩ := pr
        exact ⟨e, by simp [derefEntities, h1, he]⟩

theorem dereference_config_ok_shape (fs : JsonFs) (pp : String) (c c2 : Json)
    (errs : List String) (h : dereference_config fs pp c = .ok (c2, errs)) :
    ∃ fields ents ents2, c = Json.obj fields ∧
      lookupJ fields "entities" = some (.obj ents) ∧
      derefEntities fs pp ents = .ok (ents2, errs) ∧
      c2 = Json.obj (updateKey fields "entities" (.obj ents2)) := by
  cases c with
  | obj fields =>
    cases hl : lookupJ fields "entities" with
    | none => simp [dereference_config, hl] at h
    | some ev =>
      cases ev with
      | obj ents =>
        cases hd : derefEntities fs pp ents with
        | error e => simp [dereference_config, hl, hd] at h
        | ok pr =>
          obtain ⟨ents2, errs2⟩ := pr
          simp [dereference_config, hl, hd] at h
          exact ⟨fields, ents, ents2, rfl, hl, by rw [hd, h.2], h.1.symm⟩
      | _ => simp [dereference_config, hl] at h
  | _ => simp [dereference_config] at h

theorem from_directory_mk (base_path : String)
    (mf : Option (Option GeneratorYaml)) (lf rf : Option String)
    (vf : Option (Option Yaml)) (sf : Option (Option Json))
    (fd td : Option (List String)) (dd : DepsDir) :
    from_directory base_path (.mk mf lf rf vf sf fd td dd) =
      from_directory_reads base_path mf lf rf vf sf fd td (readDeps base_path dd) := by
  rw [from_directory]

theorem loadDeps_cons (base_path name : String) (sub : PkgFs) (rest : DepEntries) :
    loadDeps base_path (.cons name sub rest) =
      (match from_directory (base_path ++ "/dependencies/" ++ name) sub with
       | .ok g => g :: loadDeps base_path rest
       | .error _ => loadDeps base_path rest) := by
  rw [loadDeps]

/-! The claim theorems. -/

/-- C1 (code bug): installing the staged package `c1staged` (readable
manifest, one staged template file) into an empty store reports success
and the computed destination `root/name/version`, yet the store comes
back with no directories and no files: the guarded `create_dir_all` is
a dropped, never-awaited future and the copy of the staged tree is
commented out, so nothing is created or copied, contradicting the
claimed create-and-copy behaviour (idempotence holds only vacuously). -/
theorem install_reports_success_but_copies_nothing :
    move_to_repo_root c1staged "/store" ⟨[], []⟩ =
      .ok (⟨[], []⟩, "/store/demo/1.0.0") ∧
    c1staged.files = [("templates/index.tpl", "hello")] := ⟨rfl, rfl⟩

/-- C2 (amended): a package directory with a readable manifest and a
`templates/` directory but no `values.yaml` does NOT load with an empty
values mapping; `from_directory` fails with the NotFound error of
`read_yaml_file` on `values.yaml` (values are mandatory, not
defaultable). -/
theorem load_fails_when_values_yaml_missing (base_path : String) (fs : PkgFs)
    (m : GeneratorYaml) (tns : List String)
    (hm : fs.manifestFile = some (some m)) (ht : fs.templatesDir = some tns)
    (hv : fs.valuesFile = none) :
    from_directory base_path fs =
      .error ⟨.notFound, "Error reading file " ++ (base_path ++ "/values.yaml")⟩ := by
  cases fs with
  | mk mf lf rf vf sf fd td dd =>
    simp [PkgFs.manifestFile] at hm
    simp [PkgFs.valuesFile] at hv
    subst hm
    subst hv
    simp [from_directory_mk, from_directory_reads, read_yaml_file]

/-- C2 counterexample: the concrete package `c2pkg` (valid manifest,
`templates/index.tpl`, no `values.yaml`) makes `from_directory` return
an error, refuting the claim that the load succeeds with an empty
values mapping. -/
theorem load_missing_values_yaml_counterexample :
    from_directory "pkg" c2pkg =
      .error ⟨.notFound, "Error reading file pkg/values.yaml"⟩ := rfl

/-- C2 witness: the amended theorem applied to a concrete package. -/
theorem load_fails_when_values_yaml_missing_witness :
    from_directory "w" (.mk (some (some ⟨"v1", "w", "0.1"⟩)) none none none none none
        (some ["a.tpl"]) .absent) =
      .error ⟨.notFound, "Error reading file " ++ ("w" ++ "/values.yaml")⟩ :=
  load_fails_when_values_yaml_missing "w"
    (.mk (some (some ⟨"v1", "w", "0.1"⟩)) none none none none none (some ["a.tpl"]) .absent)
    ⟨"v1", "w", "0.1"⟩ ["a.tpl"] rfl rfl rfl

/-- C4: under `dereference_config`, an entity value object is replaced
by the referenced document's contents when it is exactly the single-key
object with key "$ref" holding a string naming a loadable file; an
object with extra keys alongside "$ref", with a non-string "$ref", or
without "$ref" is left untouched. -/
theorem deref_replaces_exactly_single_key_ref (fs : JsonFs) (pp : String)
    (fields ents : List (String × Json)) (out : Json) (errs : List String)
    (hents : lookupJ fields "entities" = some (.obj ents))
    (hok : dereference_config fs pp (.obj fields) = .ok (out, errs)) :
    ∃ ents2 : List (String × Json),
      out = Json.obj (updateKey fields "entities" (.obj ents2)) ∧
      ents2.length = ents.length ∧
      ∀ i (hi : i < ents.length) (hi2 : i < ents2.length),
        (ents2.get ⟨i, hi2⟩).1 = (ents.get ⟨i, hi⟩).1 ∧
        ∀ o, (ents.get ⟨i, hi⟩).2 = Json.obj o →
          ((∀ r d, lookupJ o "$ref" = some (.str r) → o.length = 1 →
              fs (pp ++ "/" ++ r) = some (some d) → (ents2.get ⟨i, hi2⟩).2 = d) ∧
           (∀ rv, lookupJ o "$ref" = some rv →
              ((∀ s, rv ≠ Json.str s) ∨ o.length ≠ 1) → (ents2.get ⟨i, hi2⟩).2 = Json.obj o) ∧
           (lookupJ o "$ref" = none → (ents2.get ⟨i, hi2⟩).2 = Json.obj o)) := by
  obtain ⟨fields2, ents3, ents2, hc, hl2, hde, hout⟩ :=
    dereference_config_ok_shape fs pp (.obj fields) out errs hok
  injection hc with hfe
  subst hfe
  rw [hents] at hl2
  injection hl2 with hl2
  injection hl2 with hl2
  subst hl2
  obtain ⟨hlen, hpt⟩ := derefEntities_ok_pointwise fs pp ents ents2 errs hde
  refine ⟨ents2, hout, hlen, ?_⟩
  intro i hi hi2
  obtain ⟨hfst, es, hent⟩ := hpt i hi hi2
  refine ⟨hfst, ?_⟩
  intro o ho
  rw [ho] at hent
  exact derefEntity_obj_ok_cases fs pp o _ es hent

/-- C4 witness: the theorem applied to the concrete config `c4fields`
(one exact reference, one object with an extra key, one non-string
reference) over `c4fs`. -/
theorem deref_replaces_exactly_single_key_ref_witness :
    ∃ ents2 : List (String × Json),
      c4out = Json.obj (updateKey c4fields "entities" (.obj ents2)) ∧
      ents2.length = c4ents.length ∧
      ∀ i (hi : i < c4ents.length) (hi2 : i < ents2.length),
        (ents2.get ⟨i, hi2⟩).1 = (c4ents.get ⟨i, hi⟩).1 ∧
        ∀ o, (c4ents.get ⟨i, hi⟩).2 = Json.obj o →
          ((∀ r d, lookupJ o "$ref" = some (.str r) → o.length = 1 →
              c4fs ("cfg" ++ "/" ++ r) = some (some d) → (ents2.get ⟨i, hi2⟩).2 = d) ∧
           (∀ rv, lookupJ o "$ref" = some rv →
              ((∀ s, rv ≠ Json.str s) ∨ o.length ≠ 1) → (ents2.get ⟨i, hi2⟩).2 = Json.obj o) ∧
           (lookupJ o "$ref" = none → (ents2.get ⟨i, hi2⟩).2 = Json.obj o)) :=
  deref_replaces_exactly_single_key_ref c4fs "cfg" c4fields c4ents c4out [] rfl rfl

/-- C5: an exact single-key "$ref" entity whose referenced file does not
exist resolves to itself with the missing-file message reported, and the
enclosing entity loop carries on over the remaining entities instead of
aborting. -/
theorem deref_missing_file_nonfatal (fs : JsonFs) (pp : String)
    (o : List (String × Json)) (r : String)
    (href : lookupJ o "$ref" = some (.str r)) (hlen : o.length = 1)
    (hmiss : fs (pp ++ "/" ++ r) = none) :
    derefEntity fs pp (.obj o) =
      .ok (.obj o, ["File " ++ (pp ++ "/" ++ r) ++ " does not exist"]) ∧
    ∀ (k : String) (rest : List (String × Json)),
      derefEntities fs pp ((k, Json.obj o) :: rest) =
        (derefEntities fs pp rest).map
          (fun pr => ((k, Json.obj o) :: pr.1,
                      ("File " ++ (pp ++ "/" ++ r) ++ " does not exist") :: pr.2)) := by
  have hrb : is_ref_object o = true := by simp [is_ref_object, href, hlen]
  have h1 : derefEntity fs pp (.obj o) =
      .ok (.obj o, ["File " ++ (pp ++ "/" ++ r) ++ " does not exist"]) := by
    simp [derefEntity, hrb, href, hmiss]
  refine ⟨h1, ?_⟩
  intro k rest
  cases h2 : derefEntities fs pp rest with
  | error e => simp [derefEntities, h1, h2, Except.map]
  | ok pr => simp [derefEntities, h1, h2, Except.map]

/-- C5 witness: a missing `cfg/missing.json` reference is left in place
with the error reported while the sibling entity `b` still resolves. -/
theorem deref_missing_file_nonfatal_witness :
    derefEntity c5fs "cfg" (.obj [("$ref", .str "missing.json")]) =
      .ok (.obj [("$ref", .str "missing.json")], ["File cfg/missing.json does not exist"]) ∧
    derefEntities c5fs "cfg"
        [("a", .obj [("$ref", .str "missing.json")]), ("b", .obj [("$ref", .str "b.json")])] =
      .ok ([("a", .obj [("$ref", .str "missing.json")]), ("b", .obj [("x", .num 1)])],
           ["File cfg/missing.json does not exist"]) := by
  have h := deref_missing_file_nonfatal c5fs "cfg" [("$ref", .str "missing.json")]
    "missing.json" rfl rfl rfl
  refine ⟨by simpa using h.1, ?_⟩
  rw [h.2 "a" [("b", .obj [("$ref", .str "b.json")])]]
  rfl

/-- C6: whenever the Generate command's context construction succeeds on
a config document, the final context is an object whose top-level
`outputFolder` is the orchestrator-injected destination — the insertion
happens after all dereferencing, so no dereferenced content can override
it. -/
theorem output_folder_injected_after_deref (fs : JsonFs) (pp output : String)
    (config ctx : Json) (h : build_context fs pp output (some config) = .ok ctx) :
    ∃ fields2, ctx = Json.obj fields2 ∧
      lookupJ fields2 "outputFolder" = some (.str output) := by
  cases hd : dereference_config fs pp config with
  | error e => simp [build_context, hd] at h
  | ok pr =>
    obtain ⟨cfg2, errs⟩ := pr
    simp [build_context, hd] at h
    obtain ⟨fields, ents, ents2, hc, -, -, hout⟩ :=
      dereference_config_ok_shape fs pp config cfg2 errs hd
    rw [hout] at h
    rw [inject_output_folder] at h
    exact ⟨_, h.symm, lookupJ_insertKey_self _ _ _⟩

/-- C6 witness: a config with a stale top-level `outputFolder` and a
reference that dereferences to a document carrying `outputFolder:
"evil"` still ends with the injected `/dest` at top level. -/
theorem output_folder_injected_after_deref_witness :
    ∃ fields2,
      Json.obj [("outputFolder", .str "/dest"),
                ("entities", .obj [("a", .obj [("outputFolder", .str "evil")])])] =
        Json.obj fields2 ∧
      lookupJ fields2 "outputFolder" = some (.str "/dest") :=
  output_folder_injected_after_deref c6fs "cfg" "/dest" c6config
    (.obj [("outputFolder", .str "/dest"),
           ("entities", .obj [("a", .obj [("outputFolder", .str "evil")])])]) rfl

/-- C9: `dereference_config` panics (models as an error) on every config
that violates its implicit precondition: a non-object config, a config
without a top-level "entities" key, an "entities" value that is not an
object, or any entity value that is not an object. -/
theorem deref_panics_on_malformed_config (fs : JsonFs) (pp : String) :
    (∀ c : Json, (∀ fields, c ≠ Json.obj fields) →
       ∃ e, dereference_config fs pp c = .error e) ∧
    (∀ fields : List (String × Json), lookupJ fields "entities" = none →
       ∃ e, dereference_config fs pp (.obj fields) = .error e) ∧
    (∀ (fields : List (String × Json)) (ev : Json),
       lookupJ fields "entities" = some ev → (∀ o, ev ≠ Json.obj o) →
       ∃ e, dereference_config fs pp (.obj fields) = .error e) ∧
    (∀ (fields ents : List (String × Json)) (k : String) (v : Json),
       lookupJ fields "entities" = some (.obj ents) → (k, v) ∈ ents →
       (∀ o, v ≠ Json.obj o) →
       ∃ e, dereference_config fs pp (.obj fields) = .error e) := by
  refine ⟨?_, ?_, ?_, ?_⟩
  · intro c hno
    cases c with
    | obj fields => exact absurd rfl (hno fields)
    | _ => exact ⟨_, rfl⟩
  · intro fields hl
    have he : dereference_config fs pp (.obj fields) =
        .error "panic: called Option::unwrap() on a None value (no entities key)" := by
      simp [dereference_config, hl]
    exact ⟨_, he⟩
  · intro fields ev hl hno
    cases ev with
    | obj o => exact absurd rfl (hno o)
    | _ =>
      have he : dereference_config fs pp (.obj fields) =
          .error "panic: called Option::unwrap() on a None value (entities is not an object)" := by
        simp [dereference_config, hl]
      exact ⟨_, he⟩
  · intro fields ents k v hl hmem hno
    obtain ⟨e, he⟩ := derefEntities_error_of_nonobj fs pp ents k v hmem hno
    exact ⟨e, by simp [dereference_config, hl, he]⟩

/-- C9 witness: the four panic cases at concrete configs — a string
config, an object without "entities", a non-object "entities", and a
string-valued entity. -/
theorem deref_panics_on_malformed_config_witness :
    (∃ e, dereference_config c10fs "cfg" (.str "not an object") = .error e) ∧
    (∃ e, dereference_config c10fs "cfg" (.obj [("name", .str "x")]) = .error e) ∧
    (∃ e, dereference_config c10fs "cfg" (.obj [("entities", .arr [])]) = .error e) ∧
    (∃ e, dereference_config c10fs "cfg"
        (.obj [("entities", .obj [("a", .str "plain")])]) = .error e) := by
  have h := deref_panics_on_malformed_config c10fs "cfg"
  refine ⟨h.1 (.str "not an object") (by intro fields hc; cases hc), ?_, ?_, ?_⟩
  · exact h.2.1 [("name", .str "x")] rfl
  · exact h.2.2.1 [("entities", .arr [])] (.arr []) rfl (by intro o hc; cases hc)
  · exact h.2.2.2 [("entities", .obj [("a", .str "plain")])] [("a", .str "plain")]
      "a" (.str "plain") rfl (by simp) (by intro o hc; cases hc)

/-- C10: an exact single-key "$ref" entity whose referenced file exists
but is invalid JSON makes the dereferencing panic and abort the whole
resolve — for the entity itself, for the entity loop regardless of the
remaining entities, and for `dereference_config` as a whole. -/
theorem deref_invalid_json_aborts (fs : JsonFs) (pp : String)
    (o : List (String × Json)) (r : String)
    (href : lookupJ o "$ref" = some (.str r)) (hlen : o.length = 1)
    (hbad : fs (pp ++ "/" ++ r) = some none) :
    derefEntity fs pp (.obj o) =
      .error ("panic: file " ++ (pp ++ "/" ++ r) ++ " doesnt exist or is an invalid JSON") ∧
    (∀ (k : String) (rest : List (String × Json)),
       derefEntities fs pp ((k, Json.obj o) :: rest) =
         .error ("panic: file " ++ (pp ++ "/" ++ r) ++ " doesnt exist or is an invalid JSON")) ∧
    (∀ (fields : List (String × Json)) (k : String) (rest : List (String × Json)),
       lookupJ fields "entities" = some (.obj ((k, Json.obj o) :: rest)) →
         dereference_config fs pp (.obj fields) =
           .error ("panic: file " ++ (pp ++ "/" ++ r) ++ " doesnt exist or is an invalid JSON")) := by
  have hrb : is_ref_object o = true := by simp [is_ref_object, href, hlen]
  have h1 : derefEntity fs pp (.obj o) =
      .error ("panic: file " ++ (pp ++ "/" ++ r) ++ " doesnt exist or is an invalid JSON") := by
    simp [derefEntity, hrb, href, hbad]
  have h2 : ∀ (k : String) (rest : List (String × Json)),
      derefEntities fs pp ((k, Json.obj o) :: rest) =
        .error ("panic: file " ++ (pp ++ "/" ++ r) ++ " doesnt exist or is an invalid JSON") := by
    intro k rest
    simp [derefEntities, h1]
  refine ⟨h1, h2, ?_⟩
  intro fields k rest hl
  simp [dereference_config, hl, h2 k rest]

/-- C10 witness: a config whose entity references the existing but
invalid `cfg/bad.json` makes the whole resolve error, even though a
healthy sibling entity follows. -/
theorem deref_invalid_json_aborts_witness :
    dereference_config c10fs "cfg"
        (.obj [("entities", .obj [("a", .obj [("$ref", .str "bad.json")]),
                                  ("b", .obj [("y", .num 7)])])]) =
      .error ("panic: file " ++ ("cfg" ++ "/" ++ "bad.json") ++ " doesnt exist or is an invalid JSON") :=
  (deref_invalid_json_aborts c10fs "cfg" [("$ref", .str "bad.json")] "bad.json"
      rfl rfl rfl).2.2
    [("entities", .obj [("a", .obj [("$ref", .str "bad.json")]), ("b", .obj [("y", .num 7)])])]
    "a" [("b", .obj [("y", .num 7)])] rfl

/-- C3 (amended): loading is a pure function of the observed directory
state, so re-loading an unchanged directory (same glob and `read_dir`
enumerations) yields the identical result; `files` preserves the glob
crate's alphabetical enumeration order, but `templates` merely maps the
`read_dir` entry order to full paths — the loader applies no sort of its
own. -/
theorem load_reproducible_templates_in_readdir_order (base_path : String) (fs : PkgFs)
    (g : Generator) (h : from_directory base_path fs = .ok g) :
    (∀ g2, from_directory base_path fs = .ok g2 → g2 = g) ∧
    (∀ tns, fs.templatesDir = some tns →
       g.templates = tns.map (fun n => base_path ++ "/templates/" ++ n)) ∧
    (∀ l, fs.filesDir = some l →
       g.files = (if (l.filter (fun s => !s.isEmpty)).isEmpty then none
                  else some (l.filter (fun s => !s.isEmpty)))) := by
  refine ⟨?_, ?_, ?_⟩
  · intro g2 h2
    rw [h] at h2
    injection h2 with h2
    exact h2.symm
  · intro tns htd
    cases fs with
    | mk mf lf rf vf sf fd td dd =>
      simp [PkgFs.templatesDir] at htd
      subst htd
      rw [from_directory_mk] at h
      cases hm : read_yaml_file mf (base_path ++ "/Generator.yaml") with
      | error e => simp [from_directory_reads, hm] at h
      | ok gy =>
        cases hv : read_yaml_file vf (base_path ++ "/values.yaml") with
        | error e => simp [from_directory_reads, hm, hv] at h
        | ok vals =>
          simp [from_directory_reads, hm, hv, read_required_directory] at h
          rw [h.symm]
          simp [Generator.templates, String.append_assoc]
  · intro l hfd
    cases fs with
    | mk mf lf rf vf sf fd td dd =>
      simp [PkgFs.filesDir] at hfd
      subst hfd
      rw [from_directory_mk] at h
      cases hm : read_yaml_file mf (base_path ++ "/Generator.yaml") with
      | error e => simp [from_directory_reads, hm] at h
      | ok gy =>
        cases hv : read_yaml_file vf (base_path ++ "/values.yaml") with
        | error e => simp [from_directory_reads, hm, hv] at h
        | ok vals =>
          cases ht : read_required_directory td base_path "templates" with
          | error e => simp [from_directory_reads, hm, hv, ht] at h
          | ok tmpl =>
            simp [from_directory_reads, hm, hv, ht] at h
            rw [h.symm]
            simp [Generator.files, read_optional_directory]

/-- C3 counterexample: `c3pkg`, whose `templates/` directory enumerates
as ["b.tpl", "a.tpl"], loads with its templates list in that same
unsorted order — the loader's enumeration is not sorted by path, it is
whatever `fs::read_dir` returned. -/
theorem load_templates_not_sorted_counterexample :
    from_directory "p" c3pkg = .ok c3gen ∧
    c3gen.templates = ["p/templates/b.tpl", "p/templates/a.tpl"] ∧
    sortStrings c3gen.templates = ["p/templates/a.tpl", "p/templates/b.tpl"] ∧
    c3gen.templates ≠ sortStrings c3gen.templates := ⟨rfl, rfl, rfl, by decide⟩

/-- C3 witness: the amended theorem applied to the concrete package
`c3pkg`. -/
theorem load_reproducible_templates_in_readdir_order_witness :
    (∀ g2, from_directory "p" c3pkg = .ok g2 → g2 = c3gen) ∧
    (∀ tns, c3pkg.templatesDir = some tns →
       c3gen.templates = tns.map (fun n => "p" ++ "/templates/" ++ n)) ∧
    (∀ l, c3pkg.filesDir = some l →
       c3gen.files = (if (l.filter (fun s => !s.isEmpty)).isEmpty then none
                  else some (l.filter (fun s => !s.isEmpty)))) :=
  load_reproducible_templates_in_readdir_order "p" c3pkg c3gen rfl

/-- C7 (amended): among template entries that are regular files, one is
skipped exactly when its file name starts with an underscore and its
extension is "tpl"; a file not starting with an underscore, or starting
with an underscore but carrying a different extension, is read and
dispatched to the renderer with the resolved context.  (The amendment:
an underscore-named file with no extension at all is neither skipped nor
dispatched — the `extension().unwrap()` panics, see the
counterexample.) -/
theorem template_skip_iff_underscore_tpl (fs : String → Option String) (values : Json)
    (p content : String) (rest : List String) (hfile : fs p = some content) :
    (startsWithUnderscore (fileName p) = true → extensionOf (fileName p) = some "tpl" →
       processTemplates fs values (p :: rest) = processTemplates fs values rest) ∧
    (startsWithUnderscore (fileName p) = false →
       processTemplates fs values (p :: rest) =
         (processTemplates fs values rest).map (fun out => (content, values) :: out)) ∧
    (∀ e, extensionOf (fileName p) = some e → e ≠ "tpl" →
       processTemplates fs values (p :: rest) =
         (processTemplates fs values rest).map (fun out => (content, values) :: out)) := by
  refine ⟨?_, ?_, ?_⟩
  · intro hu he
    simp [processTemplates, hfile, hu, he]
  · intro hu
    simp [processTemplates, hfile, hu]
  · intro e he hne
    by_cases hu : startsWithUnderscore (fileName p) = true
    · simp [processTemplates, hfile, hu, he, hne]
    · simp at hu
      simp [processTemplates, hfile, hu]

/-- C7 counterexample: the template file `t/_noext` (underscore, no
extension) is neither skipped-and-passed-over nor dispatched; the render
step panics on `extension().unwrap()`, refuting the claim that every
non-partial template file is dispatched to the renderer. -/
theorem underscore_no_extension_panics_counterexample :
    generate_templates c7fs (.obj []) ["t/_noext"] =
      .error "panic: called Option::unwrap() on a None value (no extension: t/_noext)" := rfl

/-- C7 witness: over `c7fs`, the partial `t/_part.tpl` is skipped, the
plain `t/index.tpl` is dispatched, and the underscore-but-txt
`t/_keep.txt` is dispatched too. -/
theorem template_skip_iff_underscore_tpl_witness :
    (processTemplates c7fs (.obj []) ["t/_part.tpl"] = processTemplates c7fs (.obj []) []) ∧
    (processTemplates c7fs (.obj []) ["t/index.tpl"] =
       (processTemplates c7fs (.obj []) []).map (fun out => ("INDEX", .obj []) :: out)) ∧
    (processTemplates c7fs (.obj []) ["t/_keep.txt"] =
       (processTemplates c7fs (.obj []) []).map (fun out => ("KEEP", .obj []) :: out)) :=
  ⟨(template_skip_iff_underscore_tpl c7fs (.obj []) "t/_part.tpl" "PARTIAL" [] rfl).1 rfl rfl,
   (template_skip_iff_underscore_tpl c7fs (.obj []) "t/index.tpl" "INDEX" [] rfl).2.1 rfl,
   (template_skip_iff_underscore_tpl c7fs (.obj []) "t/_keep.txt" "KEEP" [] rfl).2.2
     "txt" rfl (by decide)⟩

/-- C8: for a package whose manifest, values and templates read
successfully, an absent `dependencies/` directory yields no dependencies
without failing the load; a present one loads every entry, where a
failing entry is dropped while its siblings (and the parent load) are
unaffected. -/
theorem dependency_failures_swallowed_per_entry (base_path : String) (fs : PkgFs)
    (m : GeneratorYaml) (v : Yaml) (tns : List String)
    (hm : fs.manifestFile = some (some m)) (hv : fs.valuesFile = some (some v))
    (ht : fs.templatesDir = some tns) :
    (fs.depsDir = .absent → ∃ g, from_directory base_path fs = .ok g ∧
       g.dependencies = none) ∧
    (∀ entries, fs.depsDir = .present entries →
       ∃ g, from_directory base_path fs = .ok g ∧
         g.dependencies = some (loadDeps base_path entries)) ∧
    (∀ (name : String) (sub : PkgFs) (rest : DepEntries) (e : IoErr),
       from_directory (base_path ++ "/dependencies/" ++ name) sub = .error e →
       loadDeps base_path (.cons name sub rest) = loadDeps base_path rest) ∧
    (∀ (name : String) (sub : PkgFs) (rest : DepEntries) (gd : Generator),
       from_directory (base_path ++ "/dependencies/" ++ name) sub = .ok gd →
       loadDeps base_path (.cons name sub rest) = gd :: loadDeps base_path rest) := by
  cases fs with
  | mk mf lf rf vf sf fd td dd =>
    simp [PkgFs.manifestFile] at hm
    simp [PkgFs.valuesFile] at hv
    simp [PkgFs.templatesDir] at ht
    subst hm
    subst hv
    subst ht
    refine ⟨?_, ?_, ?_, ?_⟩
    · intro hdd
      simp [PkgFs.depsDir] at hdd
      subst hdd
      refine ⟨.mk base_path m lf rf v (read_optional_json_file sf) (read_optional_directory fd)
          (tns.map fun n => base_path ++ "/" ++ "templates" ++ "/" ++ n) none, ?_, ?_⟩
      · simp [from_directory_mk, from_directory_reads, read_yaml_file,
              read_required_directory, readDeps]
      · simp [Generator.dependencies]
    · intro entries hdd
      simp [PkgFs.depsDir] at hdd
      subst hdd
      refine ⟨.mk base_path m lf rf v (read_optional_json_file sf) (read_optional_directory fd)
          (tns.map fun n => base_path ++ "/" ++ "templates" ++ "/" ++ n)
          (some (loadDeps base_path entries)), ?_, ?_⟩
      · simp [from_directory_mk, from_directory_reads, read_yaml_file,
              read_required_directory, readDeps]
      · simp [Generator.dependencies]
    · intro name sub rest e he
      simp [loadDeps_cons, he]
    · intro name sub rest gd hg
      simp [loadDeps_cons, hg]

/-- C8 witness: the parent `c8parent` (one loadable dependency, one with
no manifest) loads successfully with exactly the good dependency; the
bad entry is dropped while its sibling is kept. -/
theorem dependency_failures_swallowed_per_entry_witness :
    (∃ g, from_directory "p" c8parent = .ok g ∧
       g.dependencies = some (loadDeps "p" (.cons "good" c8good (.cons "bad" c8bad .nil)))) ∧
    loadDeps "p" (.cons "bad" c8bad .nil) = loadDeps "p" .nil ∧
    loadDeps "p" (.cons "good" c8good (.cons "bad" c8bad .nil)) =
      c8goodGen :: loadDeps "p" (.cons "bad" c8bad .nil) := by
  have h := dependency_failures_swallowed_per_entry "p" c8parent
    ⟨"v1", "par", "1.0"⟩ (.obj []) ["p.tpl"] rfl rfl rfl
  refine ⟨h.2.1 (.cons "good" c8good (.cons "bad" c8bad .nil)) rfl, ?_, ?_⟩
  · exact h.2.2.1 "bad" c8bad .nil
      ⟨.notFound, "Error reading file p/dependencies/bad/Generator.yaml"⟩ rfl
  · exact h.2.2.2 "good" c8good (.cons "bad" c8bad .nil) c8goodGen rfl

end Demiurgos
